import Mathlib

/-!
Verification of the BTP window state machine, the Matter packet codec and the
TLV value conversions of the `chip_test_cli` repository, via a shallow
embedding of the Rust sources into Lean.

Conventions used throughout:
* Machine integers (`u8`, `u16`, `u32`, `u64`) are modelled as `Nat`, with
  wrap-around made explicit through `% 256` etc. where the source relies on
  `wrapping_add` / `wrapping_sub`.
* `Instant` / `Duration` values are modelled as `Nat` milliseconds.
* Fallible Rust functions returning `anyhow::Result` are modelled with
  `Except Unit` (all `anyhow` errors are collapsed into one error value);
  typed Rust error enums are modelled by corresponding Lean inductives.
* `&mut self` methods are modelled as functions returning the updated value;
  methods that mutate state before failing return the partially updated state
  alongside the error.
-/

set_option maxHeartbeats 2000000
set_option maxRecDepth 100000

deriving instance DecidableEq for Except

namespace Framing

/-! ### Embedding of `src/libs/matter-btp/src/framing.rs` -/

/-- Valid `HeaderFlags` bits: SEGMENT_BEGIN (0x01), SEGMENT_END (0x04),
CONTAINS_ACK (0x08), MANAGEMENT_MESSAGE (0x20), HANDSHAKE_MESSAGE (0x40).
The composite HANDSHAKE_REQUEST/RESPONSE flags add no further bits. -/
def HeaderFlags.allBits : Nat := 0x01 ||| 0x04 ||| 0x08 ||| 0x20 ||| 0x40

def HeaderFlags.CONTAINS_ACK : Nat := 0x08

def HeaderFlags.MANAGEMENT_MESSAGE : Nat := 0x20

def HeaderFlags.HANDSHAKE_MESSAGE : Nat := 0x40

/-- Embedding of `bitflags`' `HeaderFlags::from_bits`: defined exactly when no
bit outside `allBits` is set. -/
def HeaderFlags.from_bits (b : Nat) : Option Nat :=
  if b &&& (0xFF - HeaderFlags.allBits) = 0 then some b else none

structure PacketSequenceInfo where
  sequence_number : Nat
  ack_number : Option Nat
deriving Repr, DecidableEq

structure BtpDataPacket where
  flags : Nat
  sequence_info : PacketSequenceInfo
  payload : List Nat
deriving Repr, DecidableEq

/-- Embedding of `BtpDataPacket::parse` (framing.rs lines 84-126). -/
def BtpDataPacket.parse (buffer : List Nat) : Except Unit BtpDataPacket :=
  match buffer with
  | flags :: rest =>
    match HeaderFlags.from_bits flags with
    | none => .error ()
    | some flags =>
      if flags &&& (HeaderFlags.MANAGEMENT_MESSAGE ||| HeaderFlags.HANDSHAKE_MESSAGE) ≠ 0 then
        .error ()
      else
        if flags &&& HeaderFlags.CONTAINS_ACK ≠ 0 then
          match rest with
          | ack_number :: sequence_number :: payload =>
            .ok ⟨flags, ⟨sequence_number, some ack_number⟩, payload⟩
          | _ => .error ()
        else
          match rest with
          | sequence_number :: payload =>
            .ok ⟨flags, ⟨sequence_number, none⟩, payload⟩
          | _ => .error ()
  | _ => .error ()

/-- framing.rs: `ACKNOWLEDGE_TIMEOUT = Duration::from_secs(15)` (unused by
`prepare_send` in framing.rs). -/
def ACKNOWLEDGE_TIMEOUT : Nat := 15000

/-- framing.rs: `ACK_SEND_TIMEOUT = Duration::from_millis(2500)`. -/
def ACK_SEND_TIMEOUT : Nat := 2500

/-- framing.rs: `IDLE_TIMEOUT = Duration::from_secs(30)`. -/
def IDLE_TIMEOUT : Nat := 30000

structure PacketWindowState where
  last_seen_time : Nat
  last_packet_number : Nat
  ack_number : Nat
deriving Repr, DecidableEq

/-- Embedding of `PacketWindowState::default()`: counters start at `0xFF`,
`last_seen_time` is the current instant. -/
def PacketWindowState.mkDefault (now : Nat) : PacketWindowState :=
  { last_seen_time := now, last_packet_number := 0xFF, ack_number := 0xFF }

/-- Embedding of `PacketWindowState::unacknowledged_count`:
`last_packet_number.wrapping_sub(ack_number)` on `u8` values. -/
def PacketWindowState.unacknowledged_count (w : PacketWindowState) : Nat :=
  (w.last_packet_number + 256 - w.ack_number) % 256

/-- Embedding of `PacketWindowState::next_packet`. -/
def PacketWindowState.next_packet (w : PacketWindowState) (now : Nat) : PacketWindowState :=
  { last_seen_time :=
      if w.last_packet_number = w.ack_number then now else w.last_seen_time,
    last_packet_number := (w.last_packet_number + 1) % 256,
    ack_number := w.ack_number }

/-- Embedding of `PacketWindowState::mark_latest_ack`; returns the optional
acknowledged number together with the updated window. -/
def PacketWindowState.mark_latest_ack (w : PacketWindowState) (now : Nat) :
    Option Nat × PacketWindowState :=
  if w.last_packet_number = w.ack_number then
    (none, w)
  else
    (some w.last_packet_number,
     { w with last_seen_time := now, ack_number := w.last_packet_number })

/-- Embedding of `PacketWindowState::ack_packet`; fails (without mutating)
when the ack delta exceeds the unacknowledged count. -/
def PacketWindowState.ack_packet (w : PacketWindowState) (now ack_number : Nat) :
    Except Unit PacketWindowState :=
  if (ack_number + 256 - w.ack_number) % 256 > w.unacknowledged_count then
    .error ()
  else
    .ok { w with ack_number := ack_number, last_seen_time := now }

structure BtpWindowState where
  window_size : Nat
  sent_packets : PacketWindowState
  received_packets : PacketWindowState
deriving Repr, DecidableEq

/-- Embedding of `BtpWindowState::new`. -/
def BtpWindowState.new (window_size now : Nat) : BtpWindowState :=
  { window_size := window_size,
    sent_packets := PacketWindowState.mkDefault now,
    received_packets := PacketWindowState.mkDefault now }

/-- Embedding of `BtpWindowState::client`: packet 0 (the connect response) is
treated as received and pending ack. -/
def BtpWindowState.client (window_size now : Nat) : BtpWindowState :=
  let result := BtpWindowState.new window_size now
  { result with received_packets := result.received_packets.next_packet now }

/-- Embedding of `BtpWindowState::server`: packet 0 (the connect response) is
treated as sent and not yet acknowledged. -/
def BtpWindowState.server (window_size now : Nat) : BtpWindowState :=
  let result := BtpWindowState.new window_size now
  { result with sent_packets := result.sent_packets.next_packet now }

/-- Embedding of `BtpWindowState::packet_received`. The returned state is the
state left behind by the Rust `&mut self` method, both on success and on
failure (`received_packets.next_packet` runs before any check; a failing
`ack_packet` leaves `sent_packets` untouched). -/
def BtpWindowState.packet_received (s : BtpWindowState) (now : Nat)
    (packet_data : PacketSequenceInfo) : Except Unit Unit × BtpWindowState :=
  let received := s.received_packets.next_packet now
  let s := { s with received_packets := received }
  if received.last_packet_number ≠ packet_data.sequence_number then
    (.error (), s)
  else
    match packet_data.ack_number with
    | none => (.ok (), s)
    | some ack =>
      match s.sent_packets.ack_packet now ack with
      | .ok sent => (.ok (), { s with sent_packets := sent })
      | .error _ => (.error (), s)

inductive BtpSendData where
  | Wait (duration : Nat)
  | Send (info : PacketSequenceInfo)
deriving Repr, DecidableEq

inductive PacketData where
  | HasData
  | None
deriving Repr, DecidableEq

/-- Embedding of `BtpWindowState::prepare_send` from framing.rs (lines
546-594); the ack-delay rule uses `ACK_SEND_TIMEOUT`. The returned state is
the state left behind by the Rust method (it changes only on `Send`). -/
def BtpWindowState.prepare_send (s : BtpWindowState) (now : Nat)
    (data : PacketData) : Except Unit BtpSendData × BtpWindowState :=
  if s.sent_packets.unacknowledged_count ≠ 0 ∧
      s.sent_packets.last_seen_time + IDLE_TIMEOUT < now then
    (.error (), s)
  else if s.sent_packets.unacknowledged_count ≥ s.window_size then
    (.ok (.Wait (IDLE_TIMEOUT - (now - s.sent_packets.last_seen_time))), s)
  else if s.received_packets.unacknowledged_count = 0 ∧
      s.sent_packets.unacknowledged_count + 1 = s.window_size then
    (.ok (.Wait (IDLE_TIMEOUT - (now - s.sent_packets.last_seen_time))), s)
  else if s.received_packets.unacknowledged_count + 2 < s.window_size ∧
      data = PacketData.None ∧
      now - s.sent_packets.last_seen_time < ACK_SEND_TIMEOUT then
    (.ok (.Wait (ACK_SEND_TIMEOUT - (now - s.sent_packets.last_seen_time))), s)
  else
    let sent := s.sent_packets.next_packet now
    let (ack, received) := s.received_packets.mark_latest_ack now
    (.ok (.Send ⟨sent.last_packet_number, ack⟩),
     { s with sent_packets := sent, received_packets := received })

end Framing

namespace BtpLib

/-! ### Embedding of the duplicated window state machine in
`src/libs/matter-btp/src/lib.rs`.

The types `PacketWindowState`, `BtpWindowState`, `PacketSequenceInfo`,
`BtpSendData`, `PacketData` and the methods `default`, `unacknowledged_count`,
`next_packet`, `mark_latest_ack`, `ack_packet`, `new`, `client`, `server` and
`packet_received` in lib.rs are textually identical to those of framing.rs,
so the `Framing` definitions above embed them as well.  `prepare_send`
differs: lib.rs has no `ACK_SEND_TIMEOUT` and uses `ACKNOWLEDGE_TIMEOUT`
(15 s) in the delayed-ack rule. -/

/-- lib.rs: `ACKNOWLEDGE_TIMEOUT = Duration::from_secs(15)`. -/
def ACKNOWLEDGE_TIMEOUT : Nat := 15000

/-- lib.rs: `IDLE_TIMEOUT = Duration::from_secs(30)`. -/
def IDLE_TIMEOUT : Nat := 30000

/-- Embedding of `BtpWindowState::prepare_send` from lib.rs (lines 310-359);
identical to the framing.rs version except that the delayed-ack rule compares
against `ACKNOWLEDGE_TIMEOUT` instead of `ACK_SEND_TIMEOUT`. -/
def prepare_send (s : Framing.BtpWindowState) (now : Nat)
    (data : Framing.PacketData) :
    Except Unit Framing.BtpSendData × Framing.BtpWindowState :=
  if s.sent_packets.unacknowledged_count ≠ 0 ∧
      s.sent_packets.last_seen_time + IDLE_TIMEOUT < now then
    (.error (), s)
  else if s.sent_packets.unacknowledged_count ≥ s.window_size then
    (.ok (.Wait (IDLE_TIMEOUT - (now - s.sent_packets.last_seen_time))), s)
  else if s.received_packets.unacknowledged_count = 0 ∧
      s.sent_packets.unacknowledged_count + 1 = s.window_size then
    (.ok (.Wait (IDLE_TIMEOUT - (now - s.sent_packets.last_seen_time))), s)
  else if s.received_packets.unacknowledged_count + 2 < s.window_size ∧
      data = Framing.PacketData.None ∧
      now - s.sent_packets.last_seen_time < ACKNOWLEDGE_TIMEOUT then
    (.ok (.Wait (ACKNOWLEDGE_TIMEOUT - (now - s.sent_packets.last_seen_time))), s)
  else
    let sent := s.sent_packets.next_packet now
    let (ack, received) := s.received_packets.mark_latest_ack now
    (.ok (.Send ⟨sent.last_packet_number, ack⟩),
     { s with sent_packets := sent, received_packets := received })

end BtpLib

/-! ### Little-endian reader/writer over byte lists, embedding
`src/libs/matter-packets/src/reader.rs` and `writer.rs`.  A buffer is a
`List Nat` of byte values; reading returns the value together with the
remaining buffer, mirroring the slice-advancing `BytesSource` reader. -/

def readU8 : List Nat → Except Unit (Nat × List Nat)
  | b0 :: rest => .ok (b0, rest)
  | _ => .error ()

def readLeU16 : List Nat → Except Unit (Nat × List Nat)
  | b0 :: b1 :: rest => .ok (b0 + 256 * b1, rest)
  | _ => .error ()

def readLeU32 : List Nat → Except Unit (Nat × List Nat)
  | b0 :: b1 :: b2 :: b3 :: rest =>
    .ok (b0 + 256 * b1 + 256 ^ 2 * b2 + 256 ^ 3 * b3, rest)
  | _ => .error ()

def readLeU64 : List Nat → Except Unit (Nat × List Nat)
  | b0 :: b1 :: b2 :: b3 :: b4 :: b5 :: b6 :: b7 :: rest =>
    .ok (b0 + 256 * b1 + 256 ^ 2 * b2 + 256 ^ 3 * b3 + 256 ^ 4 * b4 +
         256 ^ 5 * b5 + 256 ^ 6 * b6 + 256 ^ 7 * b7, rest)
  | _ => .error ()

/-- Little-endian bytes of a `u16` value. -/
def leBytes2 (v : Nat) : List Nat := [v % 256, v / 256 % 256]

/-- Little-endian bytes of a `u32` value. -/
def leBytes4 (v : Nat) : List Nat :=
  [v % 256, v / 256 % 256, v / 256 ^ 2 % 256, v / 256 ^ 3 % 256]

/-- Little-endian bytes of a `u64` value. -/
def leBytes8 (v : Nat) : List Nat :=
  [v % 256, v / 256 % 256, v / 256 ^ 2 % 256, v / 256 ^ 3 % 256,
   v / 256 ^ 4 % 256, v / 256 ^ 5 % 256, v / 256 ^ 6 % 256, v / 256 ^ 7 % 256]

namespace Packet

/-! ### Embedding of `src/libs/matter-packets/src/packet.rs`.
`NodeId(u64)` and `GroupId(u16)` payloads are inlined as `Nat`. -/

inductive MessageDestination where
  | None
  | Node (id : Nat)
  | Group (id : Nat)
deriving Repr, DecidableEq

def FLAGS_VERSION_MASK : Nat := 0xF0

def FLAGS_VERSION_V1 : Nat := 0x00

def FLAGS_SOURCE_NODE_ID_SET : Nat := 0x04

def FLAGS_DESTINATION_MASK : Nat := 0x03

def FLAGS_DESTINATION_NODE : Nat := 0x01

def FLAGS_DESTINATION_GROUP : Nat := 0x02

/-- Valid `SecurityFlags` bits: PRIVACY (0x80), CONTROL_MESSAGE (0x40),
MESSAGE_EXTENSIONS (0x20) and the two session-type bits (0x03). -/
def SecurityFlags.allBits : Nat := 0x80 ||| 0x40 ||| 0x20 ||| 0x03

/-- Embedding of `SecurityFlags::from_bits`. -/
def SecurityFlags.from_bits (b : Nat) : Option Nat :=
  if b &&& (0xFF - SecurityFlags.allBits) = 0 then some b else none

inductive SessionType where
  | Unicast
  | GroupMulticast
deriving Repr, DecidableEq

/-- Embedding of `SecurityFlags::session_type`: session-type bits 2 and 3 are
reserved and rejected. -/
def SecurityFlags.session_type (b : Nat) : Except Unit SessionType :=
  match b &&& 0x03 with
  | 0 => .ok .Unicast
  | 1 => .ok .GroupMulticast
  | _ => .error ()

/-- Matter message header; `flags` holds the raw `SecurityFlags` byte. -/
structure Header where
  flags : Nat
  session_id : Nat
  source : Option Nat
  destination : MessageDestination
  counter : Nat
deriving Repr, DecidableEq

/-- Embedding of `Header::parse` (packet.rs lines 170-205).  Returns the
parsed header together with the unconsumed remainder of the buffer. -/
def Header.parse (buffer : List Nat) : Except Unit (Header × List Nat) :=
  match readU8 buffer with
  | .error _ => .error ()
  | .ok (message_flags, buffer) =>
    if message_flags &&& FLAGS_VERSION_MASK ≠ FLAGS_VERSION_V1 then .error () else
    match readLeU16 buffer with
    | .error _ => .error ()
    | .ok (session_id, buffer) =>
      match readU8 buffer with
      | .error _ => .error ()
      | .ok (flagByte, buffer) =>
        match SecurityFlags.from_bits flagByte with
        | none => .error ()
        | some flags =>
          match SecurityFlags.session_type flags with
          | .error _ => .error ()
          | .ok _ =>
            match readLeU32 buffer with
            | .error _ => .error ()
            | .ok (counter, buffer) =>
              match
                (if message_flags &&& FLAGS_SOURCE_NODE_ID_SET ≠ 0 then
                   match readLeU64 buffer with
                   | .error _ => .error ()
                   | .ok (id, buffer) => .ok (some id, buffer)
                 else .ok (none, buffer) :
                  Except Unit (Option Nat × List Nat)) with
              | .error _ => .error ()
              | .ok (source, buffer) =>
                match
                  (if message_flags &&& FLAGS_DESTINATION_MASK =
                      FLAGS_DESTINATION_NODE then
                     match readLeU64 buffer with
                     | .error _ => .error ()
                     | .ok (id, buffer) => .ok (MessageDestination.Node id, buffer)
                   else if message_flags &&& FLAGS_DESTINATION_MASK =
                      FLAGS_DESTINATION_GROUP then
                     match readLeU16 buffer with
                     | .error _ => .error ()
                     | .ok (id, buffer) => .ok (MessageDestination.Group id, buffer)
                   else .ok (MessageDestination.None, buffer) :
                    Except Unit (MessageDestination × List Nat)) with
                | .error _ => .error ()
                | .ok (destination, buffer) =>
                  .ok ({ flags := flags, session_id := session_id,
                         source := source, destination := destination,
                         counter := counter }, buffer)

/-- Message-flags byte reconstructed by `Header::write` from the `source` and
`destination` fields. -/
def Header.message_flags (h : Header) : Nat :=
  FLAGS_VERSION_V1 |||
    (match h.source with
     | some _ => FLAGS_SOURCE_NODE_ID_SET
     | none => 0) |||
    (match h.destination with
     | .Node _ => FLAGS_DESTINATION_NODE
     | .Group _ => FLAGS_DESTINATION_GROUP
     | .None => 0)

/-- Embedding of `Header::write` (packet.rs lines 238-268), emitting the bytes
an unbounded little-endian writer would receive. -/
def Header.write (h : Header) : List Nat :=
  h.message_flags :: leBytes2 h.session_id ++ [h.flags] ++ leBytes4 h.counter ++
    (match h.source with
     | some id => leBytes8 id
     | none => []) ++
    (match h.destination with
     | .Node id => leBytes8 id
     | .Group id => leBytes2 id
     | .None => [])

/-- Well-formedness of a header: all fields are in the range of their Rust
types and the security-flags byte is accepted by `SecurityFlags::from_bits`
and carries a non-reserved session type. -/
def Header.WellFormed (h : Header) : Prop :=
  h.flags < 256 ∧ h.flags &&& (0xFF - SecurityFlags.allBits) = 0 ∧
  (h.flags &&& 0x03 = 0 ∨ h.flags &&& 0x03 = 1) ∧
  h.session_id < 2 ^ 16 ∧ h.counter < 2 ^ 32 ∧
  (∀ id, h.source = some id → id < 2 ^ 64) ∧
  (∀ id, h.destination = MessageDestination.Node id → id < 2 ^ 64) ∧
  (∀ id, h.destination = MessageDestination.Group id → id < 2 ^ 16)

end Packet

namespace Payload

/-! ### Embedding of `src/libs/matter-packets/src/payload.rs` (opcode
taxonomy and `ProtocolOpCode::from_raw`). -/

inductive ProtocolOpCodeError where
  | UnknownProtocolId
  | InvalidVendorId
  | UnknownOpCode
deriving Repr, DecidableEq

inductive SecureChannelOpcode where
  | MessageCounterSyncRequest
  | MessageCounterSyncResponse
  | MrpStandaloneAck
  | PbkdfParamRequest
  | PbkdfParamResponse
  | PasePake1
  | PasePake2
  | PasePake3
  | CaseSigma1
  | CaseSigma2
  | CaseSigma3
  | CaseSigma2Resume
  | StatusReport
deriving Repr, DecidableEq, Fintype

/-- Discriminant values declared on `enum SecureChannelOpcode`. -/
def SecureChannelOpcode.toRaw : SecureChannelOpcode → Nat
  | .MessageCounterSyncRequest => 0x00
  | .MessageCounterSyncResponse => 0x01
  | .MrpStandaloneAck => 0x10
  | .PbkdfParamRequest => 0x20
  | .PbkdfParamResponse => 0x21
  | .PasePake1 => 0x22
  | .PasePake2 => 0x23
  | .PasePake3 => 0x24
  | .CaseSigma1 => 0x30
  | .CaseSigma2 => 0x31
  | .CaseSigma3 => 0x32
  | .CaseSigma2Resume => 0x33
  | .StatusReport => 0x40

/-- Embedding of `TryFrom<u8> for SecureChannelOpcode`. -/
def SecureChannelOpcode.tryFrom (value : Nat) :
    Except ProtocolOpCodeError SecureChannelOpcode :=
  match value with
  | 0x00 => .ok .MessageCounterSyncRequest
  | 0x01 => .ok .MessageCounterSyncResponse
  | 0x10 => .ok .MrpStandaloneAck
  | 0x20 => .ok .PbkdfParamRequest
  | 0x21 => .ok .PbkdfParamResponse
  | 0x22 => .ok .PasePake1
  | 0x23 => .ok .PasePake2
  | 0x24 => .ok .PasePake3
  | 0x30 => .ok .CaseSigma1
  | 0x31 => .ok .CaseSigma2
  | 0x32 => .ok .CaseSigma3
  | 0x33 => .ok .CaseSigma2Resume
  | 0x40 => .ok .StatusReport
  | _ => .error .UnknownOpCode

inductive InteractionModelOpcode where
  | StatusResponse
  | ReadRequest
  | SubscribeRequest
  | SubscribeResponse
  | ReportData
  | WriteRequest
  | WriteResponse
  | InvokeRequest
  | InvokeResponse
  | TimedRequest
deriving Repr, DecidableEq, Fintype

/-- Discriminant values declared on `enum InteractionModelOpcode`. -/
def InteractionModelOpcode.toRaw : InteractionModelOpcode → Nat
  | .StatusResponse => 0x01
  | .ReadRequest => 0x02
  | .SubscribeRequest => 0x03
  | .SubscribeResponse => 0x04
  | .ReportData => 0x05
  | .WriteRequest => 0x06
  | .WriteResponse => 0x07
  | .InvokeRequest => 0x08
  | .InvokeResponse => 0x09
  | .TimedRequest => 0x0A

/-- Embedding of `TryFrom<u8> for InteractionModelOpcode`. -/
def InteractionModelOpcode.tryFrom (code : Nat) :
    Except ProtocolOpCodeError InteractionModelOpcode :=
  match code with
  | 0x01 => .ok .StatusResponse
  | 0x02 => .ok .ReadRequest
  | 0x03 => .ok .SubscribeRequest
  | 0x04 => .ok .SubscribeResponse
  | 0x05 => .ok .ReportData
  | 0x06 => .ok .WriteRequest
  | 0x07 => .ok .WriteResponse
  | 0x08 => .ok .InvokeRequest
  | 0x09 => .ok .InvokeResponse
  | 0x0A => .ok .TimedRequest
  | _ => .error .UnknownOpCode

inductive BdxOpcode where
  | SendInit
  | SendAccept
  | ReceiveInit
  | ReceiveAccept
  | BlockQuery
  | Block
  | BlockEOF
  | BlockAck
  | BlockAckEOF
  | BlockQueryWithSkip
deriving Repr, DecidableEq, Fintype

/-- Discriminant values declared on `enum BdxOpcode`. -/
def BdxOpcode.toRaw : BdxOpcode → Nat
  | .SendInit => 0x01
  | .SendAccept => 0x02
  | .ReceiveInit => 0x04
  | .ReceiveAccept => 0x05
  | .BlockQuery => 0x10
  | .Block => 0x11
  | .BlockEOF => 0x12
  | .BlockAck => 0x13
  | .BlockAckEOF => 0x14
  | .BlockQueryWithSkip => 0x15

/-- Embedding of `TryFrom<u8> for BdxOpcode`. -/
def BdxOpcode.tryFrom (code : Nat) : Except ProtocolOpCodeError BdxOpcode :=
  match code with
  | 0x01 => .ok .SendInit
  | 0x02 => .ok .SendAccept
  | 0x04 => .ok .ReceiveInit
  | 0x05 => .ok .ReceiveAccept
  | 0x10 => .ok .BlockQuery
  | 0x11 => .ok .Block
  | 0x12 => .ok .BlockEOF
  | 0x13 => .ok .BlockAck
  | 0x14 => .ok .BlockAckEOF
  | 0x15 => .ok .BlockQueryWithSkip
  | _ => .error .UnknownOpCode

inductive UserDirectedCommissioningOpcode where
  | IdentificationDeclaration
deriving Repr, DecidableEq, Fintype

/-- Discriminant values declared on `enum UserDirectedCommissioningOpcode`. -/
def UserDirectedCommissioningOpcode.toRaw : UserDirectedCommissioningOpcode → Nat
  | .IdentificationDeclaration => 0x00

/-- Embedding of `TryFrom<u8> for UserDirectedCommissioningOpcode`. -/
def UserDirectedCommissioningOpcode.tryFrom (code : Nat) :
    Except ProtocolOpCodeError UserDirectedCommissioningOpcode :=
  match code with
  | 0x00 => .ok .IdentificationDeclaration
  | _ => .error .UnknownOpCode

inductive ProtocolOpCode where
  | SecureChannel (c : SecureChannelOpcode)
  | InteractionModel (c : InteractionModelOpcode)
  | Bdx (c : BdxOpcode)
  | UserDirectedCommissioning (c : UserDirectedCommissioningOpcode)
  | Vendor (vendor_id : Nat) (protocol : Nat) (opcode : Nat)
deriving Repr, DecidableEq

/-- Embedding of `ProtocolOpCode::from_raw` (payload.rs lines 184-217).
The optional `VendorId(u16)` argument is modelled as `Option Nat`. -/
def ProtocolOpCode.from_raw (raw_vendor_id : Option Nat)
    (raw_protocol_id : Nat) (raw_opcode : Nat) :
    Except ProtocolOpCodeError ProtocolOpCode :=
  match raw_vendor_id with
  | some vendor_id =>
    if vendor_id = 0 then .error .InvalidVendorId
    else .ok (.Vendor vendor_id raw_protocol_id raw_opcode)
  | none =>
    match raw_protocol_id with
    | 0 => (SecureChannelOpcode.tryFrom raw_opcode).map .SecureChannel
    | 1 => (InteractionModelOpcode.tryFrom raw_opcode).map .InteractionModel
    | 2 => (BdxOpcode.tryFrom raw_opcode).map .Bdx
    | 3 =>
      (UserDirectedCommissioningOpcode.tryFrom raw_opcode).map
        .UserDirectedCommissioning
    | _ => .error .UnknownProtocolId

/-- All constructors of `SecureChannelOpcode`. -/
def SecureChannelOpcode.all : List SecureChannelOpcode :=
  [.MessageCounterSyncRequest, .MessageCounterSyncResponse, .MrpStandaloneAck,
   .PbkdfParamRequest, .PbkdfParamResponse, .PasePake1, .PasePake2,
   .PasePake3, .CaseSigma1, .CaseSigma2, .CaseSigma3, .CaseSigma2Resume,
   .StatusReport]

/-- The declared opcode byte set of the secure-channel protocol. -/
def SecureChannelOpcode.codes : List Nat :=
  SecureChannelOpcode.all.map SecureChannelOpcode.toRaw

/-- All constructors of `InteractionModelOpcode`. -/
def InteractionModelOpcode.all : List InteractionModelOpcode :=
  [.StatusResponse, .ReadRequest, .SubscribeRequest, .SubscribeResponse,
   .ReportData, .WriteRequest, .WriteResponse, .InvokeRequest,
   .InvokeResponse, .TimedRequest]

/-- The declared opcode byte set of the interaction-model protocol. -/
def InteractionModelOpcode.codes : List Nat :=
  InteractionModelOpcode.all.map InteractionModelOpcode.toRaw

/-- All constructors of `BdxOpcode`. -/
def BdxOpcode.all : List BdxOpcode :=
  [.SendInit, .SendAccept, .ReceiveInit, .ReceiveAccept, .BlockQuery, .Block,
   .BlockEOF, .BlockAck, .BlockAckEOF, .BlockQueryWithSkip]

/-- The declared opcode byte set of the BDX protocol. -/
def BdxOpcode.codes : List Nat := BdxOpcode.all.map BdxOpcode.toRaw

/-- All constructors of `UserDirectedCommissioningOpcode`. -/
def UserDirectedCommissioningOpcode.all : List UserDirectedCommissioningOpcode :=
  [.IdentificationDeclaration]

/-- The declared opcode byte set of the user-directed-commissioning
protocol. -/
def UserDirectedCommissioningOpcode.codes : List Nat :=
  UserDirectedCommissioningOpcode.all.map UserDirectedCommissioningOpcode.toRaw

end Payload

namespace Tlv

/-! ### TLV value model and conversions. -/

inductive ContainerType where
  | Structure
  | Array
  | List
deriving Repr, DecidableEq

inductive TagValue where
  | Anonymous
  | ContextSpecific (tag : Nat)
  | Implicit (tag : Nat)
  | Full (vendor_id : Nat) (profile_id : Nat) (tag : Nat)
deriving Repr, DecidableEq

/-- Modelled from the spec: the `Value` enum of `tlv-stream/src/lib.rs` is not
under src/ (only its conversions, tests and callers are).  Spec §3.1: Value is
one of signed(i64), unsigned(u64), bool, float32, float64, utf8(bytes),
bytes(bytes), null, container_start(kind), container_end.  Float payloads are
kept as opaque bit patterns; byte payloads are byte lists. -/
inductive Value where
  | Signed (n : Int)
  | Unsigned (n : Nat)
  | Bool (b : Bool)
  | Float (bits : Nat)
  | Double (bits : Nat)
  | Utf8 (bytes : List Nat)
  | Bytes (bytes : List Nat)
  | Null
  | ContainerStart (kind : ContainerType)
  | ContainerEnd
deriving Repr, DecidableEq

structure Record where
  tag : TagValue
  value : Value
deriving Repr, DecidableEq

inductive ConversionError where
  | InvalidType
  | ConversionFailed
  | InvalidUtf8
deriving Repr, DecidableEq

/-- The eight integer target types of the `try_from_value_to_number!` macro
instantiations in `src/libs/tlv-stream/src/convert.rs`. -/
inductive IntTy where
  | u8
  | u16
  | u32
  | u64
  | i8
  | i16
  | i32
  | i64
deriving Repr, DecidableEq, Fintype

/-- Smallest value representable in the target integer type. -/
def IntTy.minVal : IntTy → Int
  | .u8 => 0
  | .u16 => 0
  | .u32 => 0
  | .u64 => 0
  | .i8 => -(2 ^ 7)
  | .i16 => -(2 ^ 15)
  | .i32 => -(2 ^ 31)
  | .i64 => -(2 ^ 63)

/-- Largest value representable in the target integer type. -/
def IntTy.maxVal : IntTy → Int
  | .u8 => 2 ^ 8 - 1
  | .u16 => 2 ^ 16 - 1
  | .u32 => 2 ^ 32 - 1
  | .u64 => 2 ^ 64 - 1
  | .i8 => 2 ^ 7 - 1
  | .i16 => 2 ^ 15 - 1
  | .i32 => 2 ^ 31 - 1
  | .i64 => 2 ^ 63 - 1

/-- Rust `std` `TryInto` between integer types: succeeds exactly when the
numeric value fits the target range, returning the value unchanged. -/
def IntTy.rustTryInto (t : IntTy) (n : Int) : Option Int :=
  if t.minVal ≤ n ∧ n ≤ t.maxVal then some n else none

/-- Embedding of the `try_from_value_to_number!` macro body of
`src/libs/tlv-stream/src/convert.rs` (lines 15-42), instantiated at target
type `t`: `Signed`/`Unsigned` convert via `try_into` with out-of-range mapped
to `ConversionFailed`; every other variant is `InvalidType`. -/
def tryFromValueToNumber (t : IntTy) (v : Value) : Except ConversionError Int :=
  match v with
  | .Signed n =>
    match t.rustTryInto n with
    | some m => .ok m
    | none => .error .ConversionFailed
  | .Unsigned n =>
    match t.rustTryInto n with
    | some m => .ok m
    | none => .error .ConversionFailed
  | _ => .error .InvalidType

/-- Embedding of the `try_from_for_option!` macro of convert.rs: `Null` maps
to `none`, anything else goes through the base conversion. -/
def tryFromValueToOptionNumber (t : IntTy) (v : Value) :
    Except ConversionError (Option Int) :=
  if v = Value.Null then .ok none
  else (tryFromValueToNumber t v).map some

/-- The numeric value carried by a `Signed` or `Unsigned` variant (`none` for
every non-numeric variant). -/
def numericVal : Value → Option Int
  | .Signed n => some n
  | .Unsigned n => some n
  | _ => none

end Tlv

namespace TlvStructs

/-! ### Embedding of `src/libs/tlv-structs/src/lib.rs` (merge-decode of
structures from a streaming record iterator). -/

open Tlv

inductive DecodeError where
  | InvalidData
  | InvalidNesting
  | Internal
deriving Repr, DecidableEq

inductive DecodeEnd where
  | StreamFinished
  | DataConsumed
deriving Repr, DecidableEq

/-- A fused `StreamingIterator` over records: `cur` is the record the iterator
is positioned on (`get`), `rest` the records not yet visited. -/
structure Stream where
  cur : Option Record
  rest : List Record
deriving Repr, DecidableEq

/-- Iterator `advance`/`next`: move to the following record (or beyond the
end, staying there since the source iterator is fused). -/
def Stream.next (s : Stream) : Stream :=
  match s.rest with
  | [] => ⟨none, []⟩
  | r :: t => ⟨some r, t⟩

/-- `ChildStructure` of tlv-structs: `some_unsigned: Option<u32>` (tag 1) and
`some_signed: i16` (tag 2). -/
structure ChildStructure where
  some_unsigned : Option Int
  some_signed : Int
deriving Repr, DecidableEq

def ChildStructure.mkDefault : ChildStructure := ⟨none, 0⟩

/-- Blanket `TlvMergeDecodable` impl for a base type (lib.rs lines 61-79):
convert the current record's value, any conversion failure becoming
`InvalidData`.  Primitive merges always consume exactly the current record
(`DataConsumed`) and do not advance the stream. -/
def mergeDecodeOptU32 (s : Stream) : Except DecodeError (Option Int) :=
  match s.cur with
  | none => .error .InvalidData
  | some record =>
    match tryFromValueToOptionNumber .u32 record.value with
    | .ok v => .ok v
    | .error _ => .error .InvalidData

/-- Blanket base-type merge for the `i16` field, as `mergeDecodeOptU32`. -/
def mergeDecodeI16 (s : Stream) : Except DecodeError Int :=
  match s.cur with
  | none => .error .InvalidData
  | some record =>
    match tryFromValueToNumber .i16 record.value with
    | .ok v => .ok v
    | .error _ => .error .InvalidData

/-- The `loop` of `ChildStructure::merge_decode` (tlv-structs lines 162-186),
phrased over the list of records the iterator has not yet visited: each
iteration advances (so the current record becomes the head `r`, the iterator
being `⟨some r, t⟩`), stops on end-of-stream or `ContainerEnd`, dispatches
declared tags 1 and 2 to the field merges (which always yield `DataConsumed`,
so the loop's trailing `StreamFinished` check never fires), and falls through
on any other tag. -/
def ChildStructure.mergeLoop (self : ChildStructure) :
    List Record → Except DecodeError (DecodeEnd × ChildStructure × Stream)
  | [] => .ok (.StreamFinished, self, ⟨none, []⟩)
  | r :: t =>
    match r.value with
    | .ContainerEnd => .ok (.DataConsumed, self, ⟨some r, t⟩)
    | _ =>
      match r.tag with
      | .ContextSpecific 1 =>
        match mergeDecodeOptU32 ⟨some r, t⟩ with
        | .error e => .error e
        | .ok v => ChildStructure.mergeLoop { self with some_unsigned := v } t
      | .ContextSpecific 2 =>
        match mergeDecodeI16 ⟨some r, t⟩ with
        | .error e => .error e
        | .ok v => ChildStructure.mergeLoop { self with some_signed := v } t
      | _ => ChildStructure.mergeLoop self t

/-- Embedding of `ChildStructure::merge_decode` (tlv-structs lines 147-188):
the stream must be positioned on a `ContainerStart(Structure)` record, then
the loop consumes records up to stream end or a `ContainerEnd`. -/
def ChildStructure.merge_decode (self : ChildStructure) (s : Stream) :
    Except DecodeError (DecodeEnd × ChildStructure × Stream) :=
  match s.cur with
  | some ⟨_, .ContainerStart .Structure⟩ => ChildStructure.mergeLoop self s.rest
  | _ => .error .InvalidData

/-- Embedding of `wrap_structure` (tlv-structs lines 87-105): chain a
synthetic anonymous `ContainerStart(Structure)`, the source records and a
synthetic `ContainerEnd`, then advance once. -/
def wrap_structure (records : List Record) : Stream :=
  Stream.next
    ⟨none,
      ⟨.Anonymous, .ContainerStart .Structure⟩ ::
        (records ++ [⟨.Anonymous, .ContainerEnd⟩])⟩

/-- Embedding of `<ChildStructure as TlvDecodable>::decode` (tlv-structs
lines 107-127): wrap the records in a synthetic structure, merge-decode, and
require the stream to be exhausted afterwards. -/
def ChildStructure.decode (records : List Record) : Except DecodeError ChildStructure :=
  match ChildStructure.merge_decode ChildStructure.mkDefault (wrap_structure records) with
  | .error e => .error e
  | .ok (.StreamFinished, _, _) => .error .InvalidNesting
  | .ok (.DataConsumed, result, s) =>
    match (Stream.next s).cur with
    | some _ => .error .InvalidNesting
    | none => .ok result

end TlvStructs

namespace Framing

/-- States of the framing.rs window state machine reachable from `client(w)`
or `server(w)` with `2 ≤ w < 256` by arbitrary `packet_received` and
`prepare_send` calls (at arbitrary clock instants, with `u8`-valued inputs),
whether they succeed, wait or fail; each step leaves the state the Rust
`&mut self` method leaves behind. -/
inductive Reachable : BtpWindowState → Prop where
  | client (window_size now : Nat) (h2 : 2 ≤ window_size)
      (hlt : window_size < 256) :
      Reachable (BtpWindowState.client window_size now)
  | server (window_size now : Nat) (h2 : 2 ≤ window_size)
      (hlt : window_size < 256) :
      Reachable (BtpWindowState.server window_size now)
  | packet_received (s : BtpWindowState) (now : Nat) (p : PacketSequenceInfo)
      (hseq : p.sequence_number < 256)
      (hack : ∀ a, p.ack_number = some a → a < 256)
      (hs : Reachable s) :
      Reachable (s.packet_received now p).2
  | prepare_send (s : BtpWindowState) (now : Nat) (data : PacketData)
      (hs : Reachable s) :
      Reachable (s.prepare_send now data).2

/-- Structural invariant of reachable window states: all `u8` fields are in
range and the sender-side unacknowledged count never exceeds the window
size. -/
def WindowInv (s : BtpWindowState) : Prop :=
  s.window_size < 256 ∧
  s.sent_packets.last_packet_number < 256 ∧
  s.sent_packets.ack_number < 256 ∧
  s.received_packets.last_packet_number < 256 ∧
  s.received_packets.ack_number < 256 ∧
  s.sent_packets.unacknowledged_count ≤ s.window_size

end Framing

/-! ## Theorems -/

namespace Framing

theorem windowInv_packet_received (s : BtpWindowState) (now : Nat)
    (p : PacketSequenceInfo) (hack : ∀ a, p.ack_number = some a → a < 256)
    (hinv : WindowInv s) : WindowInv (s.packet_received now p).2 := by
  obtain ⟨hw, hsl, hsa, hrl, hra, hcnt⟩ := hinv
  have hrl' : ((s.received_packets.last_packet_number + 1) % 256) < 256 := by omega
  simp only [BtpWindowState.packet_received, PacketWindowState.next_packet,
    PacketWindowState.ack_packet, PacketWindowState.unacknowledged_count]
  split
  · exact ⟨hw, hsl, hsa, hrl', hra, hcnt⟩
  · split
    · exact ⟨hw, hsl, hsa, hrl', hra, hcnt⟩
    · rename_i ack hackEq
      have hacklt : ack < 256 := hack ack hackEq
      split
      · rename_i sent' hok
        split at hok
        · exact absurd hok (by simp)
        · rename_i hdelta
          simp only [Except.ok.injEq] at hok
          subst hok
          refine ⟨hw, hsl, hacklt, hrl', hra, ?_⟩
          simp only [PacketWindowState.unacknowledged_count] at hcnt hdelta ⊢
          omega
      · exact ⟨hw, hsl, hsa, hrl', hra, hcnt⟩

theorem windowInv_prepare_send (s : BtpWindowState) (now : Nat)
    (data : PacketData) (hinv : WindowInv s) :
    WindowInv (s.prepare_send now data).2 := by
  obtain ⟨hw, hsl, hsa, hrl, hra, hcnt⟩ := hinv
  simp only [BtpWindowState.prepare_send]
  split
  · exact ⟨hw, hsl, hsa, hrl, hra, hcnt⟩
  · split
    · exact ⟨hw, hsl, hsa, hrl, hra, hcnt⟩
    · rename_i hfull
      split
      · exact ⟨hw, hsl, hsa, hrl, hra, hcnt⟩
      · split
        · exact ⟨hw, hsl, hsa, hrl, hra, hcnt⟩
        · have hmla :
            ((s.received_packets.mark_latest_ack now).2).last_packet_number =
              s.received_packets.last_packet_number := by
            simp only [PacketWindowState.mark_latest_ack]
            split <;> rfl
          have hmlb :
            ((s.received_packets.mark_latest_ack now).2).ack_number =
                s.received_packets.ack_number ∨
              ((s.received_packets.mark_latest_ack now).2).ack_number =
                s.received_packets.last_packet_number := by
            simp only [PacketWindowState.mark_latest_ack]
            split
            · exact Or.inl rfl
            · exact Or.inr rfl
          simp only [PacketWindowState.unacknowledged_count] at hfull
          refine ⟨hw, ?_, ?_, ?_, ?_, ?_⟩
          · show (s.sent_packets.next_packet now).last_packet_number < 256
            simp only [PacketWindowState.next_packet]
            omega
          · show (s.sent_packets.next_packet now).ack_number < 256
            simp only [PacketWindowState.next_packet]
            exact hsa
          · show ((s.received_packets.mark_latest_ack now).2).last_packet_number < 256
            omega
          · show ((s.received_packets.mark_latest_ack now).2).ack_number < 256
            omega
          · show (s.sent_packets.next_packet now).unacknowledged_count ≤ s.window_size
            simp only [PacketWindowState.next_packet,
              PacketWindowState.unacknowledged_count]
            omega

theorem reachable_windowInv (s : BtpWindowState) (h : Reachable s) :
    WindowInv s := by
  induction h with
  | client window_size now h2 hlt =>
    refine ⟨hlt, ?_, ?_, ?_, ?_, ?_⟩ <;>
      simp [BtpWindowState.client, BtpWindowState.new,
        PacketWindowState.mkDefault, PacketWindowState.next_packet,
        PacketWindowState.unacknowledged_count]
  | server window_size now h2 hlt =>
    refine ⟨hlt, ?_, ?_, ?_, ?_, ?_⟩ <;>
      simp [BtpWindowState.server, BtpWindowState.new,
        PacketWindowState.mkDefault, PacketWindowState.next_packet,
        PacketWindowState.unacknowledged_count] <;>
      omega
  | packet_received s now p hseq hack hs ih =>
    exact windowInv_packet_received s now p hack ih
  | prepare_send s now data hs ih =>
    exact windowInv_prepare_send s now data ih

end Framing

namespace Framing

/-- C1: Deadlock freedom of the BTP window state machine.  For every reachable
`BtpWindowState` (created by `client(w)` or `server(w)` with `w ≥ 2` and
evolved by `packet_received` and `prepare_send` calls at any clock instants),
whenever `sent.unacknowledged_count() + 1 = window_size` and
`received.unacknowledged_count() = 0`, `prepare_send` never returns `Send`
(it returns `Wait` or an error), for both `PacketData` inputs. -/
theorem claim_C1_deadlock_freedom (s : BtpWindowState) (hreach : Reachable s)
    (now : Nat) (data : PacketData)
    (hrecv : s.received_packets.unacknowledged_count = 0)
    (hsent : s.sent_packets.unacknowledged_count + 1 = s.window_size)
    (p : PacketSequenceInfo) :
    (s.prepare_send now data).1 ≠ Except.ok (BtpSendData.Send p) := by
  simp only [BtpWindowState.prepare_send]
  split
  · simp
  · split
    · simp
    · split
      · simp
      · rename_i hno3
        exact absurd ⟨hrecv, hsent⟩ hno3

/-- Witness for C1 at the concrete reachable state `server 2 0`. -/
theorem claim_C1_witness :
    (BtpWindowState.server 2 0).received_packets.unacknowledged_count = 0 ∧
    (BtpWindowState.server 2 0).sent_packets.unacknowledged_count + 1 =
      (BtpWindowState.server 2 0).window_size ∧
    ((BtpWindowState.server 2 0).prepare_send 0 PacketData.None).1 ≠
      Except.ok (BtpSendData.Send ⟨1, none⟩) :=
  ⟨by decide, by decide,
   claim_C1_deadlock_freedom (BtpWindowState.server 2 0)
     (Reachable.server 2 0 (by decide) (by decide)) 0 PacketData.None
     (by decide) (by decide) ⟨1, none⟩⟩

/-- C2: the window never oversends.  In every state reachable from `client(w)`
or `server(w)` with `w ≥ 2` by any sequence of `packet_received` and
`prepare_send` operations (including those returning `Wait` or errors),
`sent.unacknowledged_count() ≤ window_size`. -/
theorem claim_C2_window_never_oversends (s : BtpWindowState)
    (hreach : Reachable s) :
    s.sent_packets.unacknowledged_count ≤ s.window_size :=
  (reachable_windowInv s hreach).2.2.2.2.2

/-- Witness for C2 at the concrete reachable state `client 4 0`. -/
theorem claim_C2_witness :
    (BtpWindowState.client 4 0).sent_packets.unacknowledged_count ≤
      (BtpWindowState.client 4 0).window_size :=
  claim_C2_window_never_oversends (BtpWindowState.client 4 0)
    (Reachable.client 4 0 (by decide) (by decide))

end Framing

namespace Framing

theorem packet_received_ok_iff (s : BtpWindowState) (now : Nat)
    (p : PacketSequenceInfo) :
    (s.packet_received now p).1 = Except.ok () ↔
      ((s.received_packets.last_packet_number + 1) % 256 = p.sequence_number ∧
        ∀ k, p.ack_number = some k →
          (k + 256 - s.sent_packets.ack_number) % 256 ≤
            s.sent_packets.unacknowledged_count) := by
  simp only [BtpWindowState.packet_received, PacketWindowState.next_packet,
    PacketWindowState.ack_packet]
  split
  · rename_i hne
    constructor
    · intro h
      simp at h
    · rintro ⟨heq, -⟩
      exact absurd heq hne
  · rename_i heq
    rw [not_not] at heq
    split
    · rename_i hnone
      simp only [true_iff]
      refine ⟨heq, ?_⟩
      intro k hk
      rw [hnone] at hk
      exact absurd hk (by simp)
    · rename_i k hk
      rw [hk]
      split
      · rename_i sent hok
        split at hok
        · exact absurd hok (by simp)
        · rename_i hdelta
          simp only [true_iff]
          refine ⟨heq, ?_⟩
          intro k' hk'
          have hkk : k = k' := Option.some.inj hk'
          subst hkk
          omega
      · rename_i e herr
        split at herr
        · rename_i hdelta
          constructor
          · intro h
            simp at h
          · rintro ⟨-, hall⟩
            exact absurd (hall k rfl) (by omega)
        · exact absurd herr (by simp)

theorem packet_received_snd_received (s : BtpWindowState) (now : Nat)
    (p : PacketSequenceInfo) :
    ((s.packet_received now p).2).received_packets =
      s.received_packets.next_packet now := by
  simp only [BtpWindowState.packet_received]
  split
  · rfl
  · split
    · rfl
    · split <;> rfl

/-- C3 counterexample: starting from `server(4)`, `packet_received(0, None)`
succeeds and sets `received.last_packet_number = 0`, but the subsequent
`packet_received(1, ack=Some 5)` fails even though `1 = 0 + 1 (mod 256)`
(its ack is out of range), refuting the claimed iff. -/
theorem claim_C3_counterexample :
    ((BtpWindowState.server 4 0).packet_received 0 ⟨0, none⟩).1 = Except.ok () ∧
    (((BtpWindowState.server 4 0).packet_received 0 ⟨0, none⟩).2).received_packets.last_packet_number = 0 ∧
    (1 : Nat) = (0 + 1) % 256 ∧
    ((((BtpWindowState.server 4 0).packet_received 0 ⟨0, none⟩).2).packet_received
        0 ⟨1, some 5⟩).1 = Except.error () :=
  ⟨rfl, rfl, rfl, rfl⟩

/-- C3 (amended): after `packet_received` with sequence number `n` succeeds,
`received_packets.last_packet_number = n`; and a subsequent `packet_received`
with sequence number `m` succeeds iff `m = n + 1 (mod 256)` AND any ack
number `k` it carries satisfies the window check
`(k - sent.ack_number) mod 256 ≤ sent.unacknowledged_count()`. -/
theorem claim_C3_receive_monotonicity_amended (s s' : BtpWindowState)
    (now n : Nat) (a : Option Nat)
    (h : s.packet_received now ⟨n, a⟩ = (Except.ok (), s')) :
    s'.received_packets.last_packet_number = n ∧
    ∀ (now' m : Nat) (b : Option Nat),
      ((s'.packet_received now' ⟨m, b⟩).1 = Except.ok () ↔
        (m = (n + 1) % 256 ∧
          ∀ k, b = some k →
            (k + 256 - s'.sent_packets.ack_number) % 256 ≤
              s'.sent_packets.unacknowledged_count)) := by
  have h1 : (s.packet_received now ⟨n, a⟩).1 = Except.ok () := by rw [h]
  have h2 : (s.packet_received now ⟨n, a⟩).2 = s' := by rw [h]
  have hrecv := packet_received_snd_received s now ⟨n, a⟩
  rw [h2] at hrecv
  have hlast : s'.received_packets.last_packet_number = n := by
    rw [hrecv]
    exact ((packet_received_ok_iff s now ⟨n, a⟩).mp h1).1
  refine ⟨hlast, ?_⟩
  intro now' m b
  rw [packet_received_ok_iff s' now' ⟨m, b⟩, hlast]
  constructor
  · rintro ⟨hm, hk⟩
    exact ⟨hm.symm, hk⟩
  · rintro ⟨hm, hk⟩
    exact ⟨hm.symm, hk⟩

/-- Witness for the amended C3 at `server 4 0` followed by two in-order
packets without acks. -/
theorem claim_C3_witness :
    (((BtpWindowState.server 4 0).packet_received 0 ⟨0, none⟩).2).received_packets.last_packet_number = 0 ∧
    ((((BtpWindowState.server 4 0).packet_received 0 ⟨0, none⟩).2).packet_received
        5 ⟨1, none⟩).1 = Except.ok () := by
  have happ :=
    claim_C3_receive_monotonicity_amended (BtpWindowState.server 4 0)
      (((BtpWindowState.server 4 0).packet_received 0 ⟨0, none⟩).2) 0 0 none
      rfl
  refine ⟨happ.1, ?_⟩
  refine (happ.2 5 1 none).mpr ⟨by decide, ?_⟩
  intro k hk
  exact absurd hk (by simp)

end Framing

/-- C9 counterexample: on the same state (`client(4)` immediately after
creation) with the same input (`PacketData::None`) at the same instant, the
framing.rs implementation returns `Wait 2500 ms` where the lib.rs
implementation returns `Wait 15000 ms`: the two duplicated state machines are
not observationally equivalent. -/
theorem claim_C9_counterexample :
    ((Framing.BtpWindowState.client 4 0).prepare_send 0
        Framing.PacketData.None).1 =
      Except.ok (Framing.BtpSendData.Wait 2500) ∧
    (BtpLib.prepare_send (Framing.BtpWindowState.client 4 0) 0
        Framing.PacketData.None).1 =
      Except.ok (Framing.BtpSendData.Wait 15000) ∧
    BtpLib.prepare_send (Framing.BtpWindowState.client 4 0) 0
        Framing.PacketData.None ≠
      (Framing.BtpWindowState.client 4 0).prepare_send 0
        Framing.PacketData.None := by
  refine ⟨rfl, rfl, ?_⟩
  intro h
  have h1 : (BtpLib.prepare_send (Framing.BtpWindowState.client 4 0) 0
      Framing.PacketData.None).1 =
      ((Framing.BtpWindowState.client 4 0).prepare_send 0
        Framing.PacketData.None).1 := by rw [h]
  rw [show (BtpLib.prepare_send (Framing.BtpWindowState.client 4 0) 0
      Framing.PacketData.None).1 =
      Except.ok (Framing.BtpSendData.Wait 15000) from rfl] at h1
  rw [show ((Framing.BtpWindowState.client 4 0).prepare_send 0
      Framing.PacketData.None).1 =
      Except.ok (Framing.BtpSendData.Wait 2500) from rfl] at h1
  simp at h1

/-- C9 (amended): the two duplicated implementations share their state types,
constructors and `packet_received` verbatim, and their `prepare_send`
functions agree on every state, instant and input for which the delayed
standalone-ack rule is not reached (that is, unless
`received.unacknowledged_count() + 2 < window_size` and `data = None`); in
that remaining rule framing.rs delays against `ACK_SEND_TIMEOUT` (2.5 s)
while lib.rs delays against `ACKNOWLEDGE_TIMEOUT` (15 s), so the produced
`Wait` durations (and `Wait`-versus-`Send` outcomes) differ. -/
theorem claim_C9_prepare_send_equiv_amended (s : Framing.BtpWindowState)
    (now : Nat) (data : Framing.PacketData)
    (h : ¬(s.received_packets.unacknowledged_count + 2 < s.window_size ∧
        data = Framing.PacketData.None)) :
    BtpLib.prepare_send s now data = s.prepare_send now data := by
  have h4a : ¬(s.received_packets.unacknowledged_count + 2 < s.window_size ∧
      data = Framing.PacketData.None ∧
      now - s.sent_packets.last_seen_time < BtpLib.ACKNOWLEDGE_TIMEOUT) := by
    intro hc
    exact h ⟨hc.1, hc.2.1⟩
  have h4b : ¬(s.received_packets.unacknowledged_count + 2 < s.window_size ∧
      data = Framing.PacketData.None ∧
      now - s.sent_packets.last_seen_time < Framing.ACK_SEND_TIMEOUT) := by
    intro hc
    exact h ⟨hc.1, hc.2.1⟩
  simp only [BtpLib.prepare_send, Framing.BtpWindowState.prepare_send,
    BtpLib.IDLE_TIMEOUT, Framing.IDLE_TIMEOUT, if_neg h4a, if_neg h4b]

/-- Witness for the amended C9 at `client 4 0` with data pending. -/
theorem claim_C9_witness :
    ¬((Framing.BtpWindowState.client 4 0).received_packets.unacknowledged_count +
          2 < (Framing.BtpWindowState.client 4 0).window_size ∧
        Framing.PacketData.HasData = Framing.PacketData.None) ∧
    BtpLib.prepare_send (Framing.BtpWindowState.client 4 0) 0
        Framing.PacketData.HasData =
      (Framing.BtpWindowState.client 4 0).prepare_send 0
        Framing.PacketData.HasData :=
  ⟨by simp, claim_C9_prepare_send_equiv_amended
    (Framing.BtpWindowState.client 4 0) 0 Framing.PacketData.HasData (by simp)⟩

namespace Framing

/-- C10: BTP data packet parsing rejects undefined flag bits.  For every
input buffer whose first byte has any bit set outside the defined set
{bit0 segment-begin, bit2 segment-end, bit3 contains-ack, bit5
management-message, bit6 handshake-message} — that is, any bit of the mask
`0x92` — `BtpDataPacket::parse` returns an error rather than ignoring the
unknown bits. -/
theorem claim_C10_reject_undefined_flag_bits (b : Nat) (rest : List Nat)
    (hb : b < 256) (hbit : b &&& 0x92 ≠ 0) :
    BtpDataPacket.parse (b :: rest) = Except.error () := by
  have hmask : (0xFF - HeaderFlags.allBits) = 0x92 := by decide
  simp only [BtpDataPacket.parse, HeaderFlags.from_bits, hmask, if_neg hbit]

/-- Witness for C10 at the flags byte `0x10` (undefined bit 4 set). -/
theorem claim_C10_witness :
    (0x10 : Nat) < 256 ∧ (0x10 : Nat) &&& 0x92 ≠ 0 ∧
    BtpDataPacket.parse [0x10, 0, 0] = Except.error () :=
  ⟨by decide, by decide,
   claim_C10_reject_undefined_flag_bits 0x10 [0, 0] (by decide) (by decide)⟩

end Framing

theorem readLeU16_leBytes2 (v : Nat) (r : List Nat) :
    readLeU16 (leBytes2 v ++ r) = .ok (v % 2 ^ 16, r) := by
  simp only [leBytes2, List.cons_append, List.nil_append, readLeU16,
    Except.ok.injEq, Prod.mk.injEq, and_true]
  omega

theorem readLeU32_leBytes4 (v : Nat) (r : List Nat) :
    readLeU32 (leBytes4 v ++ r) = .ok (v % 2 ^ 32, r) := by
  simp only [leBytes4, List.cons_append, List.nil_append, readLeU32,
    Except.ok.injEq, Prod.mk.injEq, and_true]
  omega

theorem readLeU64_leBytes8 (v : Nat) (r : List Nat) :
    readLeU64 (leBytes8 v ++ r) = .ok (v % 2 ^ 64, r) := by
  simp only [leBytes8, List.cons_append, List.nil_append, readLeU64,
    Except.ok.injEq, Prod.mk.injEq, and_true]
  omega

theorem readLeU16_ok_inv {bs : List Nat} {v : Nat} {r : List Nat}
    (h : readLeU16 bs = .ok (v, r)) (hb : ∀ b ∈ bs, b < 256) :
    bs = leBytes2 v ++ r ∧ v < 2 ^ 16 := by
  cases bs with
  | nil => simp [readLeU16] at h
  | cons b0 t =>
    cases t with
    | nil => simp [readLeU16] at h
    | cons b1 rest =>
      simp only [readLeU16, Except.ok.injEq, Prod.mk.injEq] at h
      obtain ⟨hv, hr⟩ := h
      subst hr
      have hb0 : b0 < 256 := hb b0 (by simp)
      have hb1 : b1 < 256 := hb b1 (by simp)
      simp only [leBytes2, List.cons_append, List.nil_append, List.cons.injEq]
      refine ⟨⟨?_, ?_, trivial⟩, ?_⟩ <;> omega

theorem readLeU32_ok_inv {bs : List Nat} {v : Nat} {r : List Nat}
    (h : readLeU32 bs = .ok (v, r)) (hb : ∀ b ∈ bs, b < 256) :
    bs = leBytes4 v ++ r ∧ v < 2 ^ 32 := by
  cases bs with
  | nil => simp [readLeU32] at h
  | cons b0 t => cases t with
  | nil => simp [readLeU32] at h
  | cons b1 t => cases t with
  | nil => simp [readLeU32] at h
  | cons b2 t => cases t with
  | nil => simp [readLeU32] at h
  | cons b3 rest =>
    simp only [readLeU32, Except.ok.injEq, Prod.mk.injEq] at h
    obtain ⟨hv, hr⟩ := h
    subst hr
    have hb0 : b0 < 256 := hb b0 (by simp)
    have hb1 : b1 < 256 := hb b1 (by simp)
    have hb2 : b2 < 256 := hb b2 (by simp)
    have hb3 : b3 < 256 := hb b3 (by simp)
    simp only [leBytes4, List.cons_append, List.nil_append, List.cons.injEq]
    refine ⟨⟨?_, ?_, ?_, ?_, trivial⟩, ?_⟩ <;> omega

theorem readLeU64_ok_inv {bs : List Nat} {v : Nat} {r : List Nat}
    (h : readLeU64 bs = .ok (v, r)) (hb : ∀ b ∈ bs, b < 256) :
    bs = leBytes8 v ++ r ∧ v < 2 ^ 64 := by
  cases bs with
  | nil => simp [readLeU64] at h
  | cons b0 t => cases t with
  | nil => simp [readLeU64] at h
  | cons b1 t => cases t with
  | nil => simp [readLeU64] at h
  | cons b2 t => cases t with
  | nil => simp [readLeU64] at h
  | cons b3 t => cases t with
  | nil => simp [readLeU64] at h
  | cons b4 t => cases t with
  | nil => simp [readLeU64] at h
  | cons b5 t => cases t with
  | nil => simp [readLeU64] at h
  | cons b6 t => cases t with
  | nil => simp [readLeU64] at h
  | cons b7 rest =>
    simp only [readLeU64, Except.ok.injEq, Prod.mk.injEq] at h
    obtain ⟨hv, hr⟩ := h
    subst hr
    have hb0 : b0 < 256 := hb b0 (by simp)
    have hb1 : b1 < 256 := hb b1 (by simp)
    have hb2 : b2 < 256 := hb b2 (by simp)
    have hb3 : b3 < 256 := hb b3 (by simp)
    have hb4 : b4 < 256 := hb b4 (by simp)
    have hb5 : b5 < 256 := hb b5 (by simp)
    have hb6 : b6 < 256 := hb b6 (by simp)
    have hb7 : b7 < 256 := hb b7 (by simp)
    simp only [leBytes8, List.cons_append, List.nil_append, List.cons.injEq]
    refine ⟨⟨?_, ?_, ?_, ?_, ?_, ?_, ?_, ?_, trivial⟩, ?_⟩ <;> omega

theorem readU8_ok_inv {bs : List Nat} {v : Nat} {r : List Nat}
    (h : readU8 bs = .ok (v, r)) : bs = v :: r := by
  cases bs with
  | nil => simp [readU8] at h
  | cons a t =>
    simp only [readU8, Except.ok.injEq, Prod.mk.injEq] at h
    rw [h.1, h.2]

namespace Packet

theorem byte_decomp (b : Nat) (hb : b < 256) (h240 : b &&& 240 = 0)
    (h8 : b &&& 8 = 0) : b = (b &&& 4) + (b &&& 3) := by
  have key : ∀ x : Fin 256, x.val &&& 240 = 0 → x.val &&& 8 = 0 →
      x.val = (x.val &&& 4) + (x.val &&& 3) := by decide
  exact key ⟨b, hb⟩ h240 h8

theorem SecurityFlags.from_bits_ok {b f : Nat}
    (h : SecurityFlags.from_bits b = some f) :
    f = b ∧ b &&& (0xFF - SecurityFlags.allBits) = 0 := by
  unfold SecurityFlags.from_bits at h
  split at h
  · exact ⟨(Option.some.inj h).symm, by assumption⟩
  · simp at h

theorem SecurityFlags.session_type_ok {b : Nat} {st : SessionType}
    (h : SecurityFlags.session_type b = .ok st) :
    b &&& 0x03 = 0 ∨ b &&& 0x03 = 1 := by
  unfold SecurityFlags.session_type at h
  rcases hv : b &&& 0x03 with _ | n
  · exact Or.inl rfl
  · rcases n with _ | m
    · exact Or.inr rfl
    · rw [hv] at h
      simp at h

theorem parse_ok_inv (b0 : Nat) (tail : List Nat) (h : Header) (rest : List Nat)
    (hp : Header.parse (b0 :: tail) = .ok (h, rest))
    (hb : ∀ b ∈ tail, b < 256) :
    b0 &&& 0xF0 = 0 ∧ h.WellFormed ∧
    (h.source = none ↔ b0 &&& 0x04 = 0) ∧
    (b0 &&& 0x03 = 1 → ∃ id, h.destination = MessageDestination.Node id) ∧
    (b0 &&& 0x03 = 2 → ∃ id, h.destination = MessageDestination.Group id) ∧
    (b0 &&& 0x03 ≠ 1 → b0 &&& 0x03 ≠ 2 →
      h.destination = MessageDestination.None) ∧
    Header.write h ++ rest = h.message_flags :: tail := by
  simp only [Header.parse, readU8, FLAGS_VERSION_MASK, FLAGS_VERSION_V1,
    FLAGS_SOURCE_NODE_ID_SET, FLAGS_DESTINATION_MASK, FLAGS_DESTINATION_NODE,
    FLAGS_DESTINATION_GROUP] at hp
  split at hp
  · exact absurd hp (by simp)
  rename_i hver
  have hver0 : b0 &&& 240 = 0 := by omega
  split at hp
  · exact absurd hp (by simp)
  rename_i p16 sid t2 h16
  obtain ⟨ht2, hsid⟩ := readLeU16_ok_inv h16 hb
  have hbt2 : ∀ b ∈ t2, b < 256 := fun b hb' =>
    hb b (by rw [ht2]; exact List.mem_append_right _ hb')
  split at hp
  · exact absurd hp (by simp)
  rename_i p8 f t3 h8
  have ht3 := readU8_ok_inv h8
  have hbf : f < 256 := hbt2 f (by rw [ht3]; simp)
  have hbt3 : ∀ b ∈ t3, b < 256 := fun b hb' => hbt2 b (by rw [ht3]; simp [hb'])
  split at hp
  · exact absurd hp (by simp)
  rename_i flg hfb
  obtain ⟨hflg, hfbits⟩ := SecurityFlags.from_bits_ok hfb
  subst hflg
  split at hp
  · exact absurd hp (by simp)
  rename_i st hst
  have hfst := SecurityFlags.session_type_ok hst
  split at hp
  · exact absurd hp (by simp)
  rename_i p32 cnt t4 h32
  obtain ⟨ht4, hcnt⟩ := readLeU32_ok_inv h32 hbt3
  have hbt4 : ∀ b ∈ t4, b < 256 := fun b hb' =>
    hbt3 b (by rw [ht4]; exact List.mem_append_right _ hb')
  by_cases hs : b0 &&& 4 = 0
  · rw [if_neg (by omega)] at hp
    dsimp only at hp
    by_cases hd1 : b0 &&& 3 = 1
    · rw [if_pos hd1] at hp
      split at hp
      · exact absurd hp (by simp)
      rename_i pdest dst t5 hdsteq
      split at hdsteq
      · exact absurd hdsteq (by simp)
      rename_i p64 did t5b h64
      simp only [Except.ok.injEq, Prod.mk.injEq] at hdsteq
      obtain ⟨hdst, ht5eq⟩ := hdsteq
      subst hdst
      subst ht5eq
      obtain ⟨ht5, hdid⟩ := readLeU64_ok_inv h64 hbt4
      simp only [Except.ok.injEq, Prod.mk.injEq] at hp
      obtain ⟨hh, hrest⟩ := hp
      subst hh
      subst hrest
      refine ⟨hver0, ⟨hbf, hfbits, hfst, hsid, hcnt, by simp, ?_, by simp⟩,
        by simp [hs], fun _ => ⟨did, rfl⟩, ?_, ?_, ?_⟩
      · intro id hid
        simp only [MessageDestination.Node.injEq] at hid
        omega
      · intro h2
        exfalso
        omega
      · intro hn1 _
        exact absurd hd1 hn1
      · subst ht2 ht3 ht4 ht5
        simp [Header.write, List.cons_append, List.append_assoc]
    · rw [if_neg hd1] at hp
      by_cases hd2 : b0 &&& 3 = 2
      · rw [if_pos hd2] at hp
        split at hp
        · exact absurd hp (by simp)
        rename_i pdest dst t5 hdsteq
        split at hdsteq
        · exact absurd hdsteq (by simp)
        rename_i p16b gid t5b h16b
        simp only [Except.ok.injEq, Prod.mk.injEq] at hdsteq
        obtain ⟨hdst, ht5eq⟩ := hdsteq
        subst hdst
        subst ht5eq
        obtain ⟨ht5, hgid⟩ := readLeU16_ok_inv h16b hbt4
        simp only [Except.ok.injEq, Prod.mk.injEq] at hp
        obtain ⟨hh, hrest⟩ := hp
        subst hh
        subst hrest
        refine ⟨hver0, ⟨hbf, hfbits, hfst, hsid, hcnt, by simp, by simp, ?_⟩,
          by simp [hs], ?_, fun _ => ⟨gid, rfl⟩, ?_, ?_⟩
        · intro id hid
          simp only [MessageDestination.Group.injEq] at hid
          omega
        · intro h1
          exfalso
          omega
        · intro _ hn2
          exact absurd hd2 hn2
        · subst ht2 ht3 ht4 ht5
          simp [Header.write, List.cons_append, List.append_assoc]
      · rw [if_neg hd2] at hp
        simp only [Except.ok.injEq, Prod.mk.injEq] at hp
        obtain ⟨hh, hrest⟩ := hp
        subst hh
        subst hrest
        refine ⟨hver0, ⟨hbf, hfbits, hfst, hsid, hcnt, by simp, by simp, by simp⟩,
          by simp [hs], fun h1 => absurd h1 hd1, fun h2 => absurd h2 hd2,
          fun _ _ => rfl, ?_⟩
        subst ht2 ht3 ht4
        simp [Header.write, List.cons_append, List.append_assoc]
  · rw [if_pos (by omega)] at hp
    split at hp
    · exact absurd hp (by simp)
    rename_i psrc srcv t4b hsrceq
    split at hsrceq
    · exact absurd hsrceq (by simp)
    rename_i p64s srcid t4c h64s
    simp only [Except.ok.injEq, Prod.mk.injEq] at hsrceq
    obtain ⟨hsrcv, ht4beq⟩ := hsrceq
    subst hsrcv
    subst ht4beq
    obtain ⟨ht4b, hsrcid⟩ := readLeU64_ok_inv h64s hbt4
    have hbt4b : ∀ b ∈ t4c, b < 256 := fun b hb' =>
      hbt4 b (by rw [ht4b]; exact List.mem_append_right _ hb')
    by_cases hd1 : b0 &&& 3 = 1
    · rw [if_pos hd1] at hp
      split at hp
      · exact absurd hp (by simp)
      rename_i pdest dst t5 hdsteq
      split at hdsteq
      · exact absurd hdsteq (by simp)
      rename_i p64 did t5b h64
      simp only [Except.ok.injEq, Prod.mk.injEq] at hdsteq
      obtain ⟨hdst, ht5eq⟩ := hdsteq
      subst hdst
      subst ht5eq
      obtain ⟨ht5, hdid⟩ := readLeU64_ok_inv h64 hbt4b
      simp only [Except.ok.injEq, Prod.mk.injEq] at hp
      obtain ⟨hh, hrest⟩ := hp
      subst hh
      subst hrest
      refine ⟨hver0, ⟨hbf, hfbits, hfst, hsid, hcnt, ?_, ?_, by simp⟩,
        by simp [hs], fun _ => ⟨did, rfl⟩, ?_, ?_, ?_⟩
      · intro id hid
        simp only [Option.some.injEq] at hid
        omega
      · intro id hid
        simp only [MessageDestination.Node.injEq] at hid
        omega
      · intro h2
        exfalso
        omega
      · intro hn1 _
        exact absurd hd1 hn1
      · subst ht2 ht3 ht4 ht4b ht5
        simp [Header.write, List.cons_append, List.append_assoc]
    · rw [if_neg hd1] at hp
      by_cases hd2 : b0 &&& 3 = 2
      · rw [if_pos hd2] at hp
        split at hp
        · exact absurd hp (by simp)
        rename_i pdest dst t5 hdsteq
        split at hdsteq
        · exact absurd hdsteq (by simp)
        rename_i p16b gid t5b h16b
        simp only [Except.ok.injEq, Prod.mk.injEq] at hdsteq
        obtain ⟨hdst, ht5eq⟩ := hdsteq
        subst hdst
        subst ht5eq
        obtain ⟨ht5, hgid⟩ := readLeU16_ok_inv h16b hbt4b
        simp only [Except.ok.injEq, Prod.mk.injEq] at hp
        obtain ⟨hh, hrest⟩ := hp
        subst hh
        subst hrest
        refine ⟨hver0, ⟨hbf, hfbits, hfst, hsid, hcnt, ?_, by simp, ?_⟩,
          by simp [hs], ?_, fun _ => ⟨gid, rfl⟩, ?_, ?_⟩
        · intro id hid
          simp only [Option.some.injEq] at hid
          omega
        · intro id hid
          simp only [MessageDestination.Group.injEq] at hid
          omega
        · intro h1
          exfalso
          omega
        · intro _ hn2
          exact absurd hd2 hn2
        · subst ht2 ht3 ht4 ht4b ht5
          simp [Header.write, List.cons_append, List.append_assoc]
      · rw [if_neg hd2] at hp
        simp only [Except.ok.injEq, Prod.mk.injEq] at hp
        obtain ⟨hh, hrest⟩ := hp
        subst hh
        subst hrest
        refine ⟨hver0, ⟨hbf, hfbits, hfst, hsid, hcnt, ?_, by simp, by simp⟩,
          by simp [hs], fun h1 => absurd h1 hd1, fun h2 => absurd h2 hd2,
          fun _ _ => rfl, ?_⟩
        · intro id hid
          simp only [Option.some.injEq] at hid
          omega
        · subst ht2 ht3 ht4 ht4b
          simp [Header.write, List.cons_append, List.append_assoc]

theorem parse_write (h : Header) (rest : List Nat) (hwf : h.WellFormed) :
    Header.parse (Header.write h ++ rest) = .ok (h, rest) := by
  obtain ⟨flags, session_id, source, destination, counter⟩ := h
  obtain ⟨hf256, hfbits, hfst, hsid, hcnt, hsrcb, hdstnb, hdstgb⟩ := hwf
  have hfbits' : flags &&& (0xFF - SecurityFlags.allBits) = 0 := hfbits
  have hfst' : flags &&& 0x03 = 0 ∨ flags &&& 0x03 = 1 := hfst
  have hsid' : session_id < 2 ^ 16 := hsid
  have hcnt' : counter < 2 ^ 32 := hcnt
  have hstex : ∃ st, SecurityFlags.session_type flags = .ok st := by
    rcases hfst' with h3 | h3 <;>
      exact ⟨_, by unfold SecurityFlags.session_type; rw [h3]⟩
  obtain ⟨st, hst⟩ := hstex
  cases source with
  | none =>
    cases destination with
    | None =>
      simp [Header.write, Header.message_flags, Header.parse, readU8,
        FLAGS_VERSION_MASK, FLAGS_VERSION_V1, FLAGS_SOURCE_NODE_ID_SET,
        FLAGS_DESTINATION_MASK, FLAGS_DESTINATION_NODE, FLAGS_DESTINATION_GROUP,
        List.cons_append, List.append_assoc, List.nil_append,
        readLeU16_leBytes2, readLeU32_leBytes4,
        Nat.mod_eq_of_lt hsid', Nat.mod_eq_of_lt hcnt',
        SecurityFlags.from_bits, hfbits', hst,
        show ((0 : Nat) ||| 0 ||| 0) = 0 from by decide,
        show ((0 : Nat) &&& 240) = 0 from by decide,
        show ((0 : Nat) &&& 4) = 0 from by decide,
        show ((0 : Nat) &&& 3) = 0 from by decide]
      omega
    | Node id =>
      have hnid : id < 2 ^ 64 := hdstnb id rfl
      simp [Header.write, Header.message_flags, Header.parse, readU8,
        FLAGS_VERSION_MASK, FLAGS_VERSION_V1, FLAGS_SOURCE_NODE_ID_SET,
        FLAGS_DESTINATION_MASK, FLAGS_DESTINATION_NODE, FLAGS_DESTINATION_GROUP,
        List.cons_append, List.append_assoc, List.nil_append,
        readLeU16_leBytes2, readLeU32_leBytes4, readLeU64_leBytes8,
        Nat.mod_eq_of_lt hsid', Nat.mod_eq_of_lt hcnt', Nat.mod_eq_of_lt hnid,
        SecurityFlags.from_bits, hfbits', hst,
        show ((0 : Nat) ||| 0 ||| 1) = 1 from by decide,
        show ((1 : Nat) &&& 240) = 0 from by decide,
        show ((1 : Nat) &&& 4) = 0 from by decide,
        show ((1 : Nat) &&& 3) = 1 from by decide]
      omega
    | Group id =>
      have hgid : id < 2 ^ 16 := hdstgb id rfl
      simp [Header.write, Header.message_flags, Header.parse, readU8,
        FLAGS_VERSION_MASK, FLAGS_VERSION_V1, FLAGS_SOURCE_NODE_ID_SET,
        FLAGS_DESTINATION_MASK, FLAGS_DESTINATION_NODE, FLAGS_DESTINATION_GROUP,
        List.cons_append, List.append_assoc, List.nil_append,
        readLeU16_leBytes2, readLeU32_leBytes4,
        Nat.mod_eq_of_lt hsid', Nat.mod_eq_of_lt hcnt', Nat.mod_eq_of_lt hgid,
        SecurityFlags.from_bits, hfbits', hst,
        show ((0 : Nat) ||| 0 ||| 2) = 2 from by decide,
        show ((2 : Nat) &&& 240) = 0 from by decide,
        show ((2 : Nat) &&& 4) = 0 from by decide,
        show ((2 : Nat) &&& 3) = 2 from by decide]
      omega
  | some srcid =>
    have hsrc : srcid < 2 ^ 64 := hsrcb srcid rfl
    cases destination with
    | None =>
      simp [Header.write, Header.message_flags, Header.parse, readU8,
        FLAGS_VERSION_MASK, FLAGS_VERSION_V1, FLAGS_SOURCE_NODE_ID_SET,
        FLAGS_DESTINATION_MASK, FLAGS_DESTINATION_NODE, FLAGS_DESTINATION_GROUP,
        List.cons_append, List.append_assoc, List.nil_append,
        readLeU16_leBytes2, readLeU32_leBytes4, readLeU64_leBytes8,
        Nat.mod_eq_of_lt hsid', Nat.mod_eq_of_lt hcnt', Nat.mod_eq_of_lt hsrc,
        SecurityFlags.from_bits, hfbits', hst,
        show ((0 : Nat) ||| 4 ||| 0) = 4 from by decide,
        show ((4 : Nat) &&& 240) = 0 from by decide,
        show ((4 : Nat) &&& 4) = 4 from by decide,
        show ((4 : Nat) &&& 3) = 0 from by decide]
      omega
    | Node id =>
      have hnid : id < 2 ^ 64 := hdstnb id rfl
      simp [Header.write, Header.message_flags, Header.parse, readU8,
        FLAGS_VERSION_MASK, FLAGS_VERSION_V1, FLAGS_SOURCE_NODE_ID_SET,
        FLAGS_DESTINATION_MASK, FLAGS_DESTINATION_NODE, FLAGS_DESTINATION_GROUP,
        List.cons_append, List.append_assoc, List.nil_append,
        readLeU16_leBytes2, readLeU32_leBytes4, readLeU64_leBytes8,
        Nat.mod_eq_of_lt hsid', Nat.mod_eq_of_lt hcnt', Nat.mod_eq_of_lt hsrc,
        Nat.mod_eq_of_lt hnid,
        SecurityFlags.from_bits, hfbits', hst,
        show ((0 : Nat) ||| 4 ||| 1) = 5 from by decide,
        show ((5 : Nat) &&& 240) = 0 from by decide,
        show ((5 : Nat) &&& 4) = 4 from by decide,
        show ((5 : Nat) &&& 3) = 1 from by decide]
      omega
    | Group id =>
      have hgid : id < 2 ^ 16 := hdstgb id rfl
      simp [Header.write, Header.message_flags, Header.parse, readU8,
        FLAGS_VERSION_MASK, FLAGS_VERSION_V1, FLAGS_SOURCE_NODE_ID_SET,
        FLAGS_DESTINATION_MASK, FLAGS_DESTINATION_NODE, FLAGS_DESTINATION_GROUP,
        List.cons_append, List.append_assoc, List.nil_append,
        readLeU16_leBytes2, readLeU32_leBytes4, readLeU64_leBytes8,
        Nat.mod_eq_of_lt hsid', Nat.mod_eq_of_lt hcnt', Nat.mod_eq_of_lt hsrc,
        Nat.mod_eq_of_lt hgid,
        SecurityFlags.from_bits, hfbits', hst,
        show ((0 : Nat) ||| 4 ||| 2) = 6 from by decide,
        show ((6 : Nat) &&& 240) = 0 from by decide,
        show ((6 : Nat) &&& 4) = 4 from by decide,
        show ((6 : Nat) &&& 3) = 2 from by decide]
      omega

theorem byte_and4 (b : Nat) (hb : b < 256) : b &&& 4 = 0 ∨ b &&& 4 = 4 := by
  have key : ∀ x : Fin 256, x.val &&& 4 = 0 ∨ x.val &&& 4 = 4 := by decide
  exact key ⟨b, hb⟩

theorem byte_and3_lt (b : Nat) (hb : b < 256) : b &&& 3 < 4 := by
  have key : ∀ x : Fin 256, x.val &&& 3 < 4 := by decide
  exact key ⟨b, hb⟩

/-- C4 counterexample: the byte sequence `[0x08, 0, 0, 0, 0, 0, 0, 0]` is
accepted by `Header::parse` in full (bit 3 of the message-flags byte is
ignored), but re-serializing the parsed header yields
`[0, 0, 0, 0, 0, 0, 0, 0]`, which differs from the consumed bytes: the
serialize-after-parse direction of the round-trip is not bit-exact. -/
theorem claim_C4_counterexample :
    Header.parse [0x08, 0, 0, 0, 0, 0, 0, 0] =
      .ok ({ flags := 0, session_id := 0, source := none,
             destination := MessageDestination.None, counter := 0 }, []) ∧
    Header.write { flags := 0, session_id := 0, source := none,
                   destination := MessageDestination.None, counter := 0 } =
      [0, 0, 0, 0, 0, 0, 0, 0] ∧
    ([0, 0, 0, 0, 0, 0, 0, 0] : List Nat) ≠ [0x08, 0, 0, 0, 0, 0, 0, 0] :=
  ⟨rfl, rfl, by decide⟩

/-- C4 (amended): (1) for every well-formed header H and trailing bytes,
parsing `serialize(H)` yields H back exactly and consumes exactly the header
bytes; (2) for every byte sequence accepted by `Header::parse` whose
message-flags byte has bit 3 clear and destination-kind bits different from
3, re-serializing the parsed header reproduces, bit-exactly, the bytes that
parse consumed.  (The two excluded flag-byte patterns are accepted by parse
but not reproduced: bit 3 is ignored and destination-kind 3 is read back as
"no destination".) -/
theorem claim_C4_header_roundtrip_amended :
    (∀ (h : Header) (rest : List Nat), h.WellFormed →
      Header.parse (Header.write h ++ rest) = .ok (h, rest)) ∧
    (∀ (b0 : Nat) (tail rest : List Nat) (h : Header),
      Header.parse (b0 :: tail) = .ok (h, rest) →
      b0 < 256 → (∀ b ∈ tail, b < 256) →
      b0 &&& 0x08 = 0 → b0 &&& 0x03 ≠ 3 →
      Header.write h ++ rest = b0 :: tail) := by
  constructor
  · exact fun h rest hwf => parse_write h rest hwf
  · intro b0 tail rest h hp hb0 hb h8 h3
    obtain ⟨hver, hwf, hsrc, hd1, hd2, hd0, hwrite⟩ :=
      parse_ok_inv b0 tail h rest hp hb
    have hdec := byte_decomp b0 hb0 hver h8
    have hand4 := byte_and4 b0 hb0
    have hand3 := byte_and3_lt b0 hb0
    have hmf : Header.message_flags h = b0 := by
      unfold Header.message_flags
      have hb03 : b0 &&& 3 = 0 ∨ b0 &&& 3 = 1 ∨ b0 &&& 3 = 2 := by omega
      rcases hb03 with h30 | h31 | h32
      · rw [hd0 (by omega) (by omega)]
        by_cases hs4 : b0 &&& 4 = 0
        · rw [hsrc.mpr hs4]
          simp only [FLAGS_VERSION_V1, FLAGS_SOURCE_NODE_ID_SET,
            FLAGS_DESTINATION_NODE, FLAGS_DESTINATION_GROUP]
          simp
          omega
        · cases hsv : h.source with
          | none => exact absurd (hsrc.mp hsv) hs4
          | some id =>
            simp only [FLAGS_VERSION_V1, FLAGS_SOURCE_NODE_ID_SET,
              FLAGS_DESTINATION_NODE, FLAGS_DESTINATION_GROUP]
            simp
            omega
      · obtain ⟨did, hdn⟩ := hd1 h31
        rw [hdn]
        by_cases hs4 : b0 &&& 4 = 0
        · rw [hsrc.mpr hs4]
          simp only [FLAGS_VERSION_V1, FLAGS_SOURCE_NODE_ID_SET,
            FLAGS_DESTINATION_NODE, FLAGS_DESTINATION_GROUP]
          simp
          omega
        · cases hsv : h.source with
          | none => exact absurd (hsrc.mp hsv) hs4
          | some id =>
            simp only [FLAGS_VERSION_V1, FLAGS_SOURCE_NODE_ID_SET,
              FLAGS_DESTINATION_NODE, FLAGS_DESTINATION_GROUP]
            simp
            omega
      · obtain ⟨gid, hdn⟩ := hd2 h32
        rw [hdn]
        by_cases hs4 : b0 &&& 4 = 0
        · rw [hsrc.mpr hs4]
          simp only [FLAGS_VERSION_V1, FLAGS_SOURCE_NODE_ID_SET,
            FLAGS_DESTINATION_NODE, FLAGS_DESTINATION_GROUP]
          simp
          omega
        · cases hsv : h.source with
          | none => exact absurd (hsrc.mp hsv) hs4
          | some id =>
            simp only [FLAGS_VERSION_V1, FLAGS_SOURCE_NODE_ID_SET,
              FLAGS_DESTINATION_NODE, FLAGS_DESTINATION_GROUP]
            simp
            omega
    rw [hwrite, hmf]

/-- Witness for the amended C4: both directions applied at concrete inputs
(the group-destination doctest buffer of packet.rs, and a header with
privacy flag, source node and group destination). -/
theorem claim_C4_witness :
    Header.parse
        (Header.write { flags := 0x81, session_id := 0x1234, source := some 7,
                        destination := MessageDestination.Group 9,
                        counter := 5 } ++ [1, 2]) =
      .ok ({ flags := 0x81, session_id := 0x1234, source := some 7,
             destination := MessageDestination.Group 9, counter := 5 }, [1, 2]) ∧
    Header.write { flags := 1, session_id := 0x2233,
                   source := some 0xddccbbaa78563412,
                   destination := MessageDestination.Group 0xabcd,
                   counter := 1 } ++ [] =
      [0x06, 0x33, 0x22, 0x01, 0x01, 0x00, 0x00, 0x00, 0x12, 0x34, 0x56,
       0x78, 0xaa, 0xbb, 0xcc, 0xdd, 0xcd, 0xab] :=
  ⟨claim_C4_header_roundtrip_amended.1
      { flags := 0x81, session_id := 0x1234, source := some 7,
        destination := MessageDestination.Group 9, counter := 5 } [1, 2]
      ⟨by norm_num, by decide, by decide, by norm_num, by norm_num,
       fun id hid => by
         simp only [Option.some.injEq] at hid
         omega,
       fun id hid => by simp at hid,
       fun id hid => by
         simp only [MessageDestination.Group.injEq] at hid
         omega⟩,
   claim_C4_header_roundtrip_amended.2 0x06
      [0x33, 0x22, 0x01, 0x01, 0x00, 0x00, 0x00, 0x12, 0x34, 0x56, 0x78,
       0xaa, 0xbb, 0xcc, 0xdd, 0xcd, 0xab] []
      { flags := 1, session_id := 0x2233, source := some 0xddccbbaa78563412,
        destination := MessageDestination.Group 0xabcd, counter := 1 }
      rfl (by decide) (by decide) (by decide) (by decide)⟩

/-- C5 counterexample: the buffer `[0x03, 0, 0, 0, 0, 0, 0, 0]` has
destination-kind bits equal to 3 in its message-flags byte, yet
`Header::parse` accepts it (with destination `None`) instead of returning an
error. -/
theorem claim_C5_counterexample :
    Header.parse [0x03, 0, 0, 0, 0, 0, 0, 0] =
      .ok ({ flags := 0, session_id := 0, source := none,
             destination := MessageDestination.None, counter := 0 }, []) := rfl

/-- C5 (amended): `Header::parse` does not reject the reserved
destination-kind 3; it treats it exactly like destination-kind 0: every
buffer whose message-flags byte has destination-kind bits equal to 3 that
parse accepts is parsed with destination `None` (and such buffers are
accepted, see the witness). -/
theorem claim_C5_dest_kind3_amended (b0 : Nat) (tail rest : List Nat)
    (h : Header) (hp : Header.parse (b0 :: tail) = .ok (h, rest))
    (hb : ∀ b ∈ tail, b < 256) (h3 : b0 &&& 0x03 = 3) :
    h.destination = MessageDestination.None := by
  obtain ⟨-, -, -, -, -, hd0, -⟩ := parse_ok_inv b0 tail h rest hp hb
  exact hd0 (by omega) (by omega)

/-- Witness for the amended C5 at the buffer `[0x03, 0, 0, 0, 0, 0, 0, 0]`. -/
theorem claim_C5_witness :
    ({ flags := 0, session_id := 0, source := none,
       destination := MessageDestination.None, counter := 0 } : Header).destination =
      MessageDestination.None :=
  claim_C5_dest_kind3_amended 0x03 [0, 0, 0, 0, 0, 0, 0] []
    { flags := 0, session_id := 0, source := none,
      destination := MessageDestination.None, counter := 0 }
    rfl (by decide) (by decide)

end Packet

namespace Payload

/-- C6: opcode resolution.  With a vendor id present, `from_raw` fails with
`InvalidVendorId` iff the vendor id is 0 and otherwise returns
`Vendor{vendor_id, protocol, opcode}` unchanged; with no vendor id, protocol
ids 0, 1, 2, 3 map to SecureChannel, InteractionModel, Bdx and
UserDirectedCommissioning respectively with the opcode byte decoded against
that protocol's declared opcode set (an undeclared opcode fails with
`UnknownOpCode`), and any protocol id outside 0..3 fails with
`UnknownProtocolId`. -/
theorem claim_C6_opcode_resolution :
    (∀ (pid op : Nat),
      ProtocolOpCode.from_raw (some 0) pid op =
        .error ProtocolOpCodeError.InvalidVendorId) ∧
    (∀ (v pid op : Nat), v ≠ 0 →
      ProtocolOpCode.from_raw (some v) pid op =
        .ok (ProtocolOpCode.Vendor v pid op)) ∧
    (∀ op : Fin 256,
      (op.val ∈ SecureChannelOpcode.codes →
        ∃ c, SecureChannelOpcode.toRaw c = op.val ∧
          ProtocolOpCode.from_raw none 0 op.val =
            .ok (ProtocolOpCode.SecureChannel c)) ∧
      (op.val ∉ SecureChannelOpcode.codes →
        ProtocolOpCode.from_raw none 0 op.val =
          .error ProtocolOpCodeError.UnknownOpCode)) ∧
    (∀ op : Fin 256,
      (op.val ∈ InteractionModelOpcode.codes →
        ∃ c, InteractionModelOpcode.toRaw c = op.val ∧
          ProtocolOpCode.from_raw none 1 op.val =
            .ok (ProtocolOpCode.InteractionModel c)) ∧
      (op.val ∉ InteractionModelOpcode.codes →
        ProtocolOpCode.from_raw none 1 op.val =
          .error ProtocolOpCodeError.UnknownOpCode)) ∧
    (∀ op : Fin 256,
      (op.val ∈ BdxOpcode.codes →
        ∃ c, BdxOpcode.toRaw c = op.val ∧
          ProtocolOpCode.from_raw none 2 op.val =
            .ok (ProtocolOpCode.Bdx c)) ∧
      (op.val ∉ BdxOpcode.codes →
        ProtocolOpCode.from_raw none 2 op.val =
          .error ProtocolOpCodeError.UnknownOpCode)) ∧
    (∀ op : Fin 256,
      (op.val ∈ UserDirectedCommissioningOpcode.codes →
        ∃ c, UserDirectedCommissioningOpcode.toRaw c = op.val ∧
          ProtocolOpCode.from_raw none 3 op.val =
            .ok (ProtocolOpCode.UserDirectedCommissioning c)) ∧
      (op.val ∉ UserDirectedCommissioningOpcode.codes →
        ProtocolOpCode.from_raw none 3 op.val =
          .error ProtocolOpCodeError.UnknownOpCode)) ∧
    (∀ (pid op : Nat), 3 < pid →
      ProtocolOpCode.from_raw none pid op =
        .error ProtocolOpCodeError.UnknownProtocolId) := by
  refine ⟨fun pid op => rfl, ?_, by decide, by decide, by decide, by decide, ?_⟩
  · intro v pid op hv
    simp [ProtocolOpCode.from_raw, hv]
  · intro pid op hpid
    obtain ⟨k, rfl⟩ : ∃ k, pid = k + 4 := ⟨pid - 4, by omega⟩
    rfl

/-- Witness for C6 at concrete raw triples, one per documented behavior. -/
theorem claim_C6_witness :
    ProtocolOpCode.from_raw (some 0) 1 2 =
      .error ProtocolOpCodeError.InvalidVendorId ∧
    ProtocolOpCode.from_raw (some 0xFFF1) 0xABCD 0x68 =
      .ok (ProtocolOpCode.Vendor 0xFFF1 0xABCD 0x68) ∧
    (∃ c, SecureChannelOpcode.toRaw c = 0x23 ∧
      ProtocolOpCode.from_raw none 0 0x23 =
        .ok (ProtocolOpCode.SecureChannel c)) ∧
    ProtocolOpCode.from_raw none 0 0x25 =
      .error ProtocolOpCodeError.UnknownOpCode ∧
    ProtocolOpCode.from_raw none 4 0 =
      .error ProtocolOpCodeError.UnknownProtocolId :=
  ⟨claim_C6_opcode_resolution.1 1 2,
   claim_C6_opcode_resolution.2.1 0xFFF1 0xABCD 0x68 (by decide),
   (claim_C6_opcode_resolution.2.2.1 ⟨0x23, by decide⟩).1 (by decide),
   (claim_C6_opcode_resolution.2.2.1 ⟨0x25, by decide⟩).2 (by decide),
   claim_C6_opcode_resolution.2.2.2.2.2.2 4 0 (by decide)⟩

end Payload

namespace TlvStructs

/-- C7: TLV skip stays balanced — the claim is right and the code is wrong.
Per the claim, merge-decoding a structure must skip an inner record whose tag
matches no declared field by consuming its full value, including every record
of a nested container up to its matching `container_end`.  The code's
unknown-tag arm (`_ => DecodeEnd::DataConsumed`) consumes only the single
`container_start` record.  On the record sequence
`[ctx9 = container_start(structure), ctx1 = unsigned 99, container_end,
ctx2 = signed -5]` the claim demands that `ChildStructure::decode` succeed
with `{some_unsigned = None, some_signed = -5}`; instead the code merges the
skipped container's inner record `ctx1 = 99` into the outer structure,
treats the skipped container's `container_end` as the structure's own end
(second conjunct), and `decode` fails with `InvalidNesting`
(first conjunct). -/
theorem claim_C7_skip_unbalanced :
    ChildStructure.decode
      [⟨.ContextSpecific 9, .ContainerStart .Structure⟩,
       ⟨.ContextSpecific 1, .Unsigned 99⟩,
       ⟨.Anonymous, .ContainerEnd⟩,
       ⟨.ContextSpecific 2, .Signed (-5)⟩] =
      .error DecodeError.InvalidNesting ∧
    ChildStructure.merge_decode ChildStructure.mkDefault
      (wrap_structure
        [⟨.ContextSpecific 9, .ContainerStart .Structure⟩,
         ⟨.ContextSpecific 1, .Unsigned 99⟩,
         ⟨.Anonymous, .ContainerEnd⟩]) =
      .ok (DecodeEnd.DataConsumed, ⟨some 99, 0⟩,
           ⟨some ⟨.Anonymous, .ContainerEnd⟩, [⟨.Anonymous, .ContainerEnd⟩]⟩) := by
  exact ⟨rfl, rfl⟩

end TlvStructs

namespace Tlv

/-- C8: numeric conversion law.  For every TLV `Signed`/`Unsigned` value and
every target integer type among {u8, u16, u32, u64, i8, i16, i32, i64}, the
`TryFrom` conversion succeeds iff the numeric value is representable in the
target type; when it succeeds the result equals the natural cast of the
value; out-of-range values fail with `ConversionFailed`; and non-numeric
value variants fail with `InvalidType`. -/
theorem claim_C8_numeric_conversion_law (t : IntTy) (v : Value) :
    (∀ a : Int, numericVal v = some a →
      ((tryFromValueToNumber t v = .ok a ↔ t.minVal ≤ a ∧ a ≤ t.maxVal) ∧
       (¬(t.minVal ≤ a ∧ a ≤ t.maxVal) →
         tryFromValueToNumber t v = .error ConversionError.ConversionFailed))) ∧
    (∀ b : Int, tryFromValueToNumber t v = .ok b → numericVal v = some b) ∧
    (numericVal v = none →
      tryFromValueToNumber t v = .error ConversionError.InvalidType) := by
  refine ⟨?_, ?_, ?_⟩
  · intro a ha
    cases v with
    | Signed n =>
      simp only [numericVal, Option.some.injEq] at ha
      subst ha
      by_cases hc : t.minVal ≤ n ∧ n ≤ t.maxVal
      · simp [tryFromValueToNumber, IntTy.rustTryInto, hc]
      · simp [tryFromValueToNumber, IntTy.rustTryInto, hc]
    | Unsigned n =>
      simp only [numericVal, Option.some.injEq] at ha
      subst ha
      by_cases hc : t.minVal ≤ (n : Int) ∧ (n : Int) ≤ t.maxVal
      · simp [tryFromValueToNumber, IntTy.rustTryInto, hc]
      · simp [tryFromValueToNumber, IntTy.rustTryInto, hc]
    | Bool b => simp [numericVal] at ha
    | Float bits => simp [numericVal] at ha
    | Double bits => simp [numericVal] at ha
    | Utf8 bytes => simp [numericVal] at ha
    | Bytes bytes => simp [numericVal] at ha
    | Null => simp [numericVal] at ha
    | ContainerStart kind => simp [numericVal] at ha
    | ContainerEnd => simp [numericVal] at ha
  · intro b hb
    cases v with
    | Signed n =>
      by_cases hc : t.minVal ≤ n ∧ n ≤ t.maxVal
      · simp only [tryFromValueToNumber, IntTy.rustTryInto, if_pos hc,
          Except.ok.injEq] at hb
        simp [numericVal, hb]
      · simp [tryFromValueToNumber, IntTy.rustTryInto, hc] at hb
    | Unsigned n =>
      by_cases hc : t.minVal ≤ (n : Int) ∧ (n : Int) ≤ t.maxVal
      · simp only [tryFromValueToNumber, IntTy.rustTryInto, if_pos hc,
          Except.ok.injEq] at hb
        simp [numericVal, hb]
      · simp [tryFromValueToNumber, IntTy.rustTryInto, hc] at hb
    | Bool b2 => simp [tryFromValueToNumber] at hb
    | Float bits => simp [tryFromValueToNumber] at hb
    | Double bits => simp [tryFromValueToNumber] at hb
    | Utf8 bytes => simp [tryFromValueToNumber] at hb
    | Bytes bytes => simp [tryFromValueToNumber] at hb
    | Null => simp [tryFromValueToNumber] at hb
    | ContainerStart kind => simp [tryFromValueToNumber] at hb
    | ContainerEnd => simp [tryFromValueToNumber] at hb
  · intro hn
    cases v <;> simp_all [numericVal, tryFromValueToNumber]

/-- Witness for C8: in-range signed-to-u8, out-of-range unsigned-to-u8, and
a non-numeric variant, all at concrete inputs. -/
theorem claim_C8_witness :
    tryFromValueToNumber IntTy.u8 (Value.Signed 5) = .ok 5 ∧
    tryFromValueToNumber IntTy.u8 (Value.Unsigned 511) =
      .error ConversionError.ConversionFailed ∧
    tryFromValueToNumber IntTy.u8 Value.Null =
      .error ConversionError.InvalidType :=
  ⟨((claim_C8_numeric_conversion_law IntTy.u8 (Value.Signed 5)).1 5 rfl).1.mpr
      (by decide),
   ((claim_C8_numeric_conversion_law IntTy.u8 (Value.Unsigned 511)).1 511
      rfl).2 (by decide),
   (claim_C8_numeric_conversion_law IntTy.u8 Value.Null).2.2 rfl⟩

end Tlv
